import Mathlib

/-!
Verification of the publish pipeline in
`tools/ci_connector_ops/ci_connector_ops/pipelines/publish.py`.

The Python steps are shallowly embedded as executable Lean functions.
External collaborators (the dagger container engine, `docker manifest
inspect`, `upload_to_gcs`, the Python stdlib `json` module) are modelled by
explicit parameters carrying their observable outcomes.  Python exceptions
are modelled with `Except PyError`: a `.error` value is an exception
propagating out of the modelled code, an `.ok` value is a normal return.
-/

namespace Publish

/-- Python exceptions that can be raised by the embedded code. -/
inductive PyError where
  /-- `KeyError` from a dict subscript; the payload is the missing key. -/
  | keyError (key : String)
  /-- `TypeError`, e.g. subscripting a non-dict with a string, or calling
  `list.append` with two arguments. -/
  | typeError
  /-- `AttributeError`, e.g. calling `.get` on a non-dict value. -/
  | attributeError
  /-- `IndexError`, e.g. `xs[0]` or `xs[-1]` on an empty list. -/
  | indexError
  /-- The `InvalidSpecOutputError` exception class defined in publish.py. -/
  | invalidSpecOutput (msg : String)
deriving DecidableEq, Repr

/-- `StepStatus` of bases.py, as used by publish.py. -/
inductive StepStatus where
  | SUCCESS
  | FAILURE
  | SKIPPED
deriving DecidableEq, Repr

/-- An opaque handle to a built dagger container. -/
abbrev Container := Nat

/-- The `output_artifact` payload of a step result.  publish.py stores either
nothing, one built container, or the list of per-platform artifacts built by
`BuildConnectorForPublish`. -/
inductive Artifact where
  | noArtifact
  | container (c : Container)
  | list (xs : List Artifact)

/-- `StepResult` of bases.py, as constructed by publish.py: the originating
step (identified here by its title string), a status, optional captured
streams and an optional output artifact. -/
structure StepResult where
  step : String
  status : StepStatus
  stdout : Option String := none
  stderr : Option String := none
  output_artifact : Artifact := .noArtifact

/-- `ConnectorReport(context, results, name)`: the ordered step results
plus the report name. -/
structure ConnectorReport where
  results : List StepResult
  name : String

/-- The fields of `PublishConnectorContext` read by publish.py. -/
structure PublishContext where
  docker_image_name : String
  docker_image_from_metadata : String
  pre_release : Bool
  /-- `metadata["dockerRepository"]`. -/
  dockerRepository : String
  spec_cache_bucket_name : String

/-- Python substring test `needle in hay`. -/
def pyIn (needle hay : String) : Prop := needle.data <:+: hay.data

instance (n h : String) : Decidable (pyIn n h) := List.decidableInfix n.data h.data

/-- Python `str.replace(old, new)` for a one-character pattern and
replacement, the only form publish.py uses (`":"` to `"/"`): every
occurrence is replaced. -/
def pyReplaceChar (s : String) (old new : Char) : String :=
  String.mk (s.data.map fun c => if c = old then new else c)

/-- A JSON value as produced by the Python stdlib `json.loads`.  Object
fields are listed in insertion order; a dict produced by `json.loads` has
distinct keys. -/
inductive Json where
  | null
  | bool (b : Bool)
  | num (n : Int)
  | str (s : String)
  | arr (xs : List Json)
  | obj (fields : List (String × Json))

/-- Python subscript `j[key]` on a parsed JSON value: dict lookup raising
`KeyError` when the key is missing, `TypeError` on any non-dict value. -/
def Json.getItem (j : Json) (key : String) : Except PyError Json :=
  match j with
  | .obj fields =>
    match fields.lookup key with
    | some v => .ok v
    | none => .error (.keyError key)
  | _ => .error .typeError

/-- Python `j.get(key, default)`: defaulting dict lookup; `AttributeError`
on a non-dict value, which has no `get` attribute. -/
def Json.getD (j : Json) (key : String) (default : Json) : Except PyError Json :=
  match j with
  | .obj fields =>
    match fields.lookup key with
    | some v => .ok v
    | none => .ok default
  | _ => .error .attributeError

/-- Python iteration over a parsed JSON value, as performed by a for-loop or
comprehension: a list yields its elements, a dict its keys, a string its
one-character substrings; scalar values raise `TypeError`. -/
def Json.iter (j : Json) : Except PyError (List Json) :=
  match j with
  | .arr xs => .ok xs
  | .obj fields => .ok (fields.map fun f => Json.str f.1)
  | .str s => .ok (s.data.map fun c => Json.str (String.singleton c))
  | _ => .error .typeError

/-- Python `str()` of a parsed JSON value, as applied by f-string
interpolation.  The scalar cases are exact; the list and dict cases stand in
for the Python repr rendering, which no claim exercises (every claim
constrains the interpolated fields to be strings). -/
def Json.pyStr : Json → String
  | .str s => s
  | .num n => toString n
  | .bool true => "True"
  | .bool false => "False"
  | .null => "None"
  | .arr _ => "<list>"
  | .obj _ => "<dict>"

/-- Python `==` between a parsed JSON value and a string literal: true
exactly when the value is that string (values of other types compare
unequal without error). -/
def jsonEqStr (j : Json) (s : String) : Bool :=
  match j with
  | .str t => t == s
  | _ => false

/-- The title of `CheckConnectorImageDoesNotExist`. -/
def checkTitle : String := "Check if the connector docker image does not exist on the registry."

/-- The set comprehension in `CheckConnectorImageDoesNotExist._run`: one
entry per manifest, interpolating `manifest["platform"]["os"]` and
`manifest["platform"]["architecture"]`, in list order; the first malformed
manifest raises. -/
def availablePlatforms : List Json → Except PyError (List String)
  | [] => .ok []
  | m :: rest => do
    let p ← m.getItem "platform"
    let os ← p.getItem "os"
    let arch ← p.getItem "architecture"
    let others ← availablePlatforms rest
    .ok ((os.pyStr ++ "/" ++ arch.pyStr) :: others)

/-- The platform extraction of `CheckConnectorImageDoesNotExist._run` on a
parsed manifest payload: `json.loads(...).get("manifests", [])`, iterated by
the set comprehension. -/
def publishedPlatforms (j : Json) : Except PyError (List String) := do
  let manifests ← j.getD "manifests" (Json.arr [])
  let items ← manifests.iter
  availablePlatforms items

/-- `CheckConnectorImageDoesNotExist._run`.  The external
`docker manifest inspect` call is modelled by its captured `stderr` and
`stdout`; `parsed` is the outcome of the Python stdlib call
`json.loads(stdout.replace("\n", ""))`, with `none` standing for a raised
`json.JSONDecodeError`.  `buildPlatforms` models `builds.BUILD_PLATFORMS`
(builds.py is not under src/; the claims quantify over it).  The except
clause of the source catches only `json.JSONDecodeError`; every other
exception escapes as `.error`. -/
def CheckConnectorImageDoesNotExist.run (ctx : PublishContext)
    (buildPlatforms : List String) (stderr stdout : String)
    (parsed : Option Json) : Except PyError StepResult :=
  if pyIn "no such manifest" stderr then
    .ok { step := checkTitle, status := .SUCCESS,
          stdout := some ("No manifest found for " ++ ctx.docker_image_from_metadata ++ ".") }
  else
    match parsed with
    | none =>
      .ok { step := checkTitle, status := .FAILURE,
            stderr := some stderr, stdout := some stdout }
    | some j =>
      match publishedPlatforms j with
      | .error e => .error e
      | .ok platforms =>
        if ∀ p ∈ buildPlatforms, p ∈ platforms then
          .ok { step := checkTitle, status := .SKIPPED,
                stderr := some (ctx.docker_image_from_metadata ++ " already exists.") }
        else
          .ok { step := checkTitle, status := .SUCCESS,
                stdout := some ("No all manifests found for " ++ ctx.docker_image_from_metadata ++ ".") }

/-- Modelled from the spec: the `Step.run` execution boundary of the `Step`
base class (bases.py, which is not under src/), for a step returning a bare
result.  Spec 4.1 and 7a: expected failure modes are converted to a FAILURE
`StepResult` with diagnostic text; spec 7b: unanticipated defects such as
`KeyError` or `TypeError` from malformed external data propagate and abort
the invocation. -/
def checkBoundary (title : String) (r : Except PyError StepResult) :
    Except PyError StepResult :=
  match r with
  | .error (.invalidSpecOutput msg) =>
    .ok { step := title, status := .FAILURE, stderr := some msg }
  | other => other

/-- An example context used by concrete witnesses. -/
def ctxEx : PublishContext :=
  { docker_image_name := "airbyte/source-faker:1.0.0"
    docker_image_from_metadata := "airbyte/source-faker:1.0.0"
    pre_release := false
    dockerRepository := "airbyte/source-faker"
    spec_cache_bucket_name := "io-airbyte-cloud-spec-cache" }

/-- A parsed manifest payload with two published platforms, used by
concrete witnesses. -/
def manifestEx : Json :=
  Json.obj [("manifests", Json.arr
    [Json.obj [("platform", Json.obj [("os", Json.str "linux"), ("architecture", Json.str "amd64")])],
     Json.obj [("platform", Json.obj [("os", Json.str "linux"), ("architecture", Json.str "arm64")])]])]

/-- A parsed manifest payload whose manifest entry lacks the `platform`
key, used by C10. -/
def malformedManifestEx : Json := Json.obj [("manifests", Json.arr [Json.obj []])]

/-- The title of `BuildConnectorForPublish`. -/
def buildTitle : String := "Build connector for publish"

/-- The for-loop of `BuildConnectorForPublish._run`: the first result whose
status is not SUCCESS, if any. -/
def firstNonSuccess : List StepResult → Option StepResult
  | [] => none
  | r :: rest =>
    if r.status = StepStatus.SUCCESS then firstNonSuccess rest else some r

/-- `BuildConnectorForPublish._run`.  The external
`builds.run_connector_build(context)` call (builds.py is not under src/)
returns a dict with one result per requested platform; `.values()` yields
them in the requested-platform insertion order, which is how
`build_connectors_results` is ordered here.  The loop returns the first
non-SUCCESS result unchanged; otherwise the per-platform output artifacts
are collected in the same order. -/
def BuildConnectorForPublish.run (build_connectors_results : List StepResult) : StepResult :=
  match firstNonSuccess build_connectors_results with
  | some build_result => build_result
  | none =>
    { step := buildTitle, status := .SUCCESS,
      output_artifact := .list (build_connectors_results.map fun r => r.output_artifact) }

/-- The title of `PushConnectorImageToRegistry`. -/
def pushTitle : String := "Push connector image to registry"

/-- `PushConnectorImageToRegistry.latest_docker_image_name`. -/
def latest_docker_image_name (ctx : PublishContext) : String :=
  ctx.dockerRepository ++ ":latest"

/-- One call to the external `Container.publish`: the target address, the
primary container it is invoked on, and the platform variants attached. -/
structure PublishCall where
  address : String
  primary : Container
  platform_variants : List Container
deriving DecidableEq, Repr

/-- `PushConnectorImageToRegistry._run`.  The external `Container.publish`
is modelled by `publish`, returning the published image reference or the
message of a raised dagger `QueryError`.  The try block catches `QueryError`
from either call and converts it to FAILURE; `built[0]` on an empty list
raises `IndexError`, which is not caught.  The returned trace lists the
publish calls performed, in order. -/
def PushConnectorImageToRegistry.run (ctx : PublishContext)
    (publish : String → Container → List Container → Except String String)
    (built_containers_per_platform : List Container) :
    Except PyError (StepResult × List PublishCall) :=
  match built_containers_per_platform with
  | [] => .error .indexError
  | c0 :: variants =>
    let addr1 := "docker.io/" ++ ctx.docker_image_name
    match publish addr1 c0 variants with
    | .error e =>
      .ok ({ step := pushTitle, status := .FAILURE, stderr := some e },
           [⟨addr1, c0, variants⟩])
    | .ok ref1 =>
      if ctx.pre_release then
        .ok ({ step := pushTitle, status := .SUCCESS, stdout := some ("Published " ++ ref1) },
             [⟨addr1, c0, variants⟩])
      else
        let addr2 := "docker.io/" ++ latest_docker_image_name ctx
        match publish addr2 c0 variants with
        | .error e =>
          .ok ({ step := pushTitle, status := .FAILURE, stderr := some e },
               [⟨addr1, c0, variants⟩, ⟨addr2, c0, variants⟩])
        | .ok ref2 =>
          .ok ({ step := pushTitle, status := .SUCCESS, stdout := some ("Published " ++ ref2) },
               [⟨addr1, c0, variants⟩, ⟨addr2, c0, variants⟩])

/-- The title of `UploadSpecToCache`. -/
def uploadSpecTitle : String := "Upload connector spec to spec cache bucket"

/-- `UploadSpecToCache.default_spec_file_name`. -/
def default_spec_file_name : String := "spec.json"

/-- `UploadSpecToCache.cloud_spec_file_name`. -/
def cloud_spec_file_name : String := "spec.cloud.json"

/-- The spec-key stem property of `UploadSpecToCache`:
`"specs/" + self.context.docker_image_name.replace(":", "/")`. -/
def spec_key_stem (ctx : PublishContext) : String :=
  "specs/" ++ pyReplaceChar ctx.docker_image_name ':' '/'

/-- `UploadSpecToCache.oss_spec_key`. -/
def oss_spec_key (ctx : PublishContext) : String :=
  spec_key_stem ctx ++ "/" ++ default_spec_file_name

/-- `UploadSpecToCache.cloud_spec_key`. -/
def cloud_spec_key (ctx : PublishContext) : String :=
  spec_key_stem ctx ++ "/" ++ cloud_spec_file_name

/-- JSON string escaping as performed by the Python stdlib `json.dumps`
on its ASCII fragment; no claim inspects serialized output. -/
def jsonEscape (s : String) : String :=
  s.data.foldl
    (fun acc c =>
      acc ++ (if c = '\"' then "\\\"" else if c = '\\' then "\\\\"
        else if c = '\n' then "\\n" else if c = '\t' then "\\t"
        else if c = '\r' then "\\r" else String.singleton c))
    ""

mutual

/-- The Python stdlib `json.dumps` with default separators, used by
`_parse_spec_output` to reserialize the matched record. -/
def Json.dumps : Json → String
  | .null => "null"
  | .bool true => "true"
  | .bool false => "false"
  | .num n => toString n
  | .str s => "\"" ++ jsonEscape s ++ "\""
  | .arr xs => "[" ++ Json.dumpsArr xs ++ "]"
  | .obj fs => "\x7b" ++ Json.dumpsObj fs ++ "\x7d"

/-- Comma-separated serialization of a JSON array body. -/
def Json.dumpsArr : List Json → String
  | [] => ""
  | [j] => Json.dumps j
  | j :: rest => Json.dumps j ++ ", " ++ Json.dumpsArr rest

/-- Comma-separated serialization of a JSON object body. -/
def Json.dumpsObj : List (String × Json) → String
  | [] => ""
  | [(k, v)] => "\"" ++ jsonEscape k ++ "\": " ++ Json.dumps v
  | (k, v) :: rest =>
    "\"" ++ jsonEscape k ++ "\": " ++ Json.dumps v ++ ", " ++ Json.dumpsObj rest

end

/-- `UploadSpecToCache._parse_spec_output`.  The spec-command output is
split on newlines and each line is passed to the Python stdlib
`json.loads`; `lines` records the per-line outcomes in order, with `none`
standing for a raised `json.JSONDecodeError`.  The except clause catches
only `json.JSONDecodeError` and `KeyError`: a line parsing to a non-dict
JSON value makes the subscript `parsed_json["type"]` raise `TypeError`,
which escapes.  When no line yields a SPEC record the distinguished
`InvalidSpecOutputError` is raised. -/
def parse_spec_output : List (Option Json) → Except PyError String
  | [] => .error (.invalidSpecOutput "Could not parse the output of the spec command.")
  | none :: rest => parse_spec_output rest
  | some parsed_json :: rest =>
    match parsed_json.getItem "type" with
    | .error (.keyError _) => parse_spec_output rest
    | .error e => .error e
    | .ok v =>
      if jsonEqStr v "SPEC" then .ok parsed_json.dumps else parse_spec_output rest

/-- The upload loop of `UploadSpecToCache._run`: each entry is one
`upload_to_gcs` remote call, modelled by `upload` mapping the key and the
file contents to the returned `(exit_code, stdout, stderr)`; the first
non-zero exit code stops the loop with FAILURE.  Returns the result paired
with the keys of the upload calls performed, in order. -/
def uploadLoop (upload : String → String → Nat × String × String) :
    List (String × String) → List String → Except PyError (StepResult × List String)
  | [], trace => .ok ({ step := uploadSpecTitle, status := .SUCCESS }, trace.reverse)
  | (key, file) :: rest, trace =>
    let r := upload key file
    if r.1 ≠ 0 then
      .ok ({ step := uploadSpecTitle, status := .FAILURE,
             stdout := some r.2.1, stderr := some r.2.2 },
           (key :: trace).reverse)
    else
      uploadLoop upload rest (key :: trace)

/-- The body of `UploadSpecToCache._run` after both spec extractions.  The
`_get_spec_as_file` calls are modelled by carrying the spec text as the
file contents.  When the specs differ, the source line
`specs_to_uploads.append(self.cloud_spec_key, self._get_spec_as_file(...))`
calls `list.append` with two arguments, which raises `TypeError` in Python
before any upload is attempted. -/
def uploadSpecCore (ctx : PublishContext)
    (upload : String → String → Nat × String × String)
    (oss_spec cloud_spec : String) : Except PyError (StepResult × List String) :=
  let specs_to_uploads : List (String × String) := [(oss_spec_key ctx, oss_spec)]
  if oss_spec ≠ cloud_spec then
    .error .typeError
  else
    uploadLoop upload specs_to_uploads []

/-- `UploadSpecToCache._run`: extract the OSS spec from the OSS-mode spec
command output, then the CLOUD spec from the CLOUD-mode output (each given
by the per-line `json.loads` outcomes of the external container run), then
upload.  Returns the result paired with the keys uploaded, in order. -/
def UploadSpecToCache.run (ctx : PublishContext)
    (upload : String → String → Nat × String × String)
    (ossLines cloudLines : List (Option Json)) :
    Except PyError (StepResult × List String) := do
  let oss_spec ← parse_spec_output ossLines
  let cloud_spec ← parse_spec_output cloudLines
  uploadSpecCore ctx upload oss_spec cloud_spec

/-- Modelled from the spec: the `Step.run` execution boundary of the `Step`
base class (bases.py, which is not under src/), for a step returning a
result paired with a call trace.  Spec 4.1 and 7a: expected failure modes,
among which the distinguished "no SPEC record found" condition, are
converted to a FAILURE `StepResult` with the diagnostic text; spec 7b:
unanticipated defects propagate and abort the invocation. -/
def stepBoundary (title : String) (r : Except PyError (StepResult × List String)) :
    Except PyError (StepResult × List String) :=
  match r with
  | .error (.invalidSpecOutput msg) =>
    .ok ({ step := title, status := .FAILURE, stderr := some msg }, [])
  | other => other

/-- A spec-output line that `_parse_spec_output` skips: it fails to parse,
or parses to a JSON object that has no `type` field or whose `type` field
is not the string `SPEC`. -/
def skippedLine : Option Json → Bool
  | none => true
  | some (Json.obj fields) =>
    match fields.lookup "type" with
    | none => true
    | some v => !(jsonEqStr v "SPEC")
  | some _ => false

/-- A constantly succeeding upload backend, used by concrete witnesses. -/
def uploadOk : String → String → Nat × String × String := fun _ _ => (0, "", "")

/-- The inputs of one `run_connector_publish_pipeline` invocation that come
from outside publish.py: the results of the gating phase
(`run_steps([MetadataValidation(...), CheckConnectorImageDoesNotExist(...)])`,
with run_steps from actions.py, not under src/), the result of the
`MetadataUpload` step (metadata.py, not under src/), the per-platform build
results consumed by `BuildConnectorForPublish`, and the results contributed
by `run_steps` on the three publish steps in the full path. -/
structure PipelineInputs where
  gatingResults : List StepResult
  metadataUploadResult : StepResult
  buildResults : List StepResult
  publishPhaseResults : List StepResult

/-- The observable outcome of one pipeline invocation: the assembled
`ConnectorReport` plus, for each downstream step, whether the pipeline
reached it. -/
structure PipelineOutcome where
  report : ConnectorReport
  ranBuild : Bool
  ranSpecUpload : Bool
  ranRegistryPush : Bool
  ranMetadataUpload : Bool

/-- The build phase of `run_connector_publish_pipeline`, given the result
of `BuildConnectorForPublish` (the local `build_connector_results` of the
source).  A non-SUCCESS build terminates with a report of the gating
results plus the build result, without the publish steps.  On a SUCCESS
build, `run_steps` on `steps_to_publish` is modelled from the spec
(actions.py is not under src/): each of the three listed steps, in
particular the final metadata upload, is attempted and the phase
contributes `inp.publishPhaseResults` to the report.  Subscripting
`built_connector_platform_variants[0]` raises on an empty or non-list
artifact, as in Python. -/
def pipelineBuildPhase (inp : PipelineInputs) (build_connector_results : StepResult) :
    Except PyError PipelineOutcome :=
  if build_connector_results.status ≠ StepStatus.SUCCESS then
    .ok { report := { results := inp.gatingResults ++ [build_connector_results],
                      name := "PUBLISH RESULTS" },
          ranBuild := true, ranSpecUpload := false,
          ranRegistryPush := false, ranMetadataUpload := false }
  else
    match build_connector_results.output_artifact with
    | .list (_ :: _) =>
      .ok { report := { results := inp.gatingResults ++ [build_connector_results]
                          ++ inp.publishPhaseResults,
                        name := "PUBLISH RESULTS" },
            ranBuild := true, ranSpecUpload := true,
            ranRegistryPush := true, ranMetadataUpload := true }
    | .list [] => .error .indexError
    | _ => .error .typeError

/-- The branch of `run_connector_publish_pipeline` on the status of the
last gating result: SKIPPED still runs the metadata-upload step and
reports the gating results followed by its result; any other non-SUCCESS
status reports the gating results alone; SUCCESS proceeds to the build
phase. -/
def pipelineAfterGating (inp : PipelineInputs) (last : StepResult) :
    Except PyError PipelineOutcome :=
  if last.status ≠ StepStatus.SUCCESS then
    if last.status = StepStatus.SKIPPED then
      .ok { report := { results := inp.gatingResults ++ [inp.metadataUploadResult],
                        name := "PUBLISH RESULTS" },
            ranBuild := false, ranSpecUpload := false,
            ranRegistryPush := false, ranMetadataUpload := true }
    else
      .ok { report := { results := inp.gatingResults, name := "PUBLISH RESULTS" },
            ranBuild := false, ranSpecUpload := false,
            ranRegistryPush := false, ranMetadataUpload := false }
  else
    pipelineBuildPhase inp (BuildConnectorForPublish.run inp.buildResults)

/-- `run_connector_publish_pipeline`.  The semaphore and context-manager
frame is omitted: it does not change the report that is produced.  The
gating phase (`run_steps` on metadata validation and the existence gate,
with run_steps from actions.py, not under src/) arrives as
`inp.gatingResults`; `results[-1]` on an empty list raises `IndexError`. -/
def run_connector_publish_pipeline (inp : PipelineInputs) :
    Except PyError PipelineOutcome :=
  match inp.gatingResults.getLast? with
  | none => .error .indexError
  | some last => pipelineAfterGating inp last

/-- The concrete pipeline inputs of the C9 witness: validation succeeds and
the existence gate reports SKIPPED. -/
def inpEx : PipelineInputs :=
  { gatingResults :=
      [{ step := "Validate the metadata file.", status := .SUCCESS },
       { step := checkTitle, status := .SKIPPED }],
    metadataUploadResult := { step := "Metadata upload", status := .SUCCESS },
    buildResults := [],
    publishPhaseResults := [] }

/-- C4: a manifest-inspect response whose stderr contains "no such manifest"
yields a SUCCESS result whose stdout mentions the target image reference,
and the response body is never parsed: the result does not depend on the
parse outcome `parsed` at all. -/
theorem check_no_such_manifest_success (ctx : PublishContext)
    (buildPlatforms : List String) (stderr stdout : String) (parsed : Option Json)
    (h : pyIn "no such manifest" stderr) :
    CheckConnectorImageDoesNotExist.run ctx buildPlatforms stderr stdout parsed
      = .ok { step := checkTitle, status := .SUCCESS,
              stdout := some ("No manifest found for " ++ ctx.docker_image_from_metadata ++ ".") }
    ∧ pyIn ctx.docker_image_from_metadata
        ("No manifest found for " ++ ctx.docker_image_from_metadata ++ ".") := by
  constructor
  · rw [CheckConnectorImageDoesNotExist.run.eq_def, if_pos h]
  · show _ <:+: _
    rw [String.data_append, String.data_append]
    exact List.infix_append _ _ _

/-- Witness for C4 at a concrete response. -/
theorem check_no_such_manifest_success_witness :
    CheckConnectorImageDoesNotExist.run ctxEx ["linux/amd64"]
        "no such manifest: airbyte/source-faker:1.0.0" "" none
      = .ok { step := checkTitle, status := .SUCCESS,
              stdout := some ("No manifest found for " ++ ctxEx.docker_image_from_metadata ++ ".") }
    ∧ pyIn ctxEx.docker_image_from_metadata
        ("No manifest found for " ++ ctxEx.docker_image_from_metadata ++ ".") :=
  check_no_such_manifest_success ctxEx ["linux/amd64"]
    "no such manifest: airbyte/source-faker:1.0.0" "" none (by decide)

/-- C3: for every manifest-inspect response that does not signal a missing
manifest and whose stdout parses to a payload with extractable published
platform strings, the gate returns SKIPPED exactly when the required
platform set is a subset of the published set, and SUCCESS otherwise;
matching is exact string equality on the `os/architecture` pairs, and the
two outcomes are mutually exclusive and exhaustive. -/
theorem check_manifest_exists_gate (ctx : PublishContext)
    (buildPlatforms : List String) (stderr stdout : String) (j : Json)
    (plats : List String)
    (hns : ¬ pyIn "no such manifest" stderr)
    (hm : publishedPlatforms j = .ok plats) :
    ∃ r, CheckConnectorImageDoesNotExist.run ctx buildPlatforms stderr stdout (some j) = .ok r
      ∧ (r.status = .SKIPPED ∨ r.status = .SUCCESS)
      ∧ (r.status = .SKIPPED ↔ ∀ p ∈ buildPlatforms, p ∈ plats)
      ∧ (r.status = .SUCCESS ↔ ¬ ∀ p ∈ buildPlatforms, p ∈ plats) := by
  rw [CheckConnectorImageDoesNotExist.run.eq_def, if_neg hns]
  simp only [hm]
  by_cases hall : ∀ p ∈ buildPlatforms, p ∈ plats
  · exact ⟨_, by rw [if_pos hall], Or.inl rfl, iff_of_true rfl hall,
      iff_of_false (fun h => StepStatus.noConfusion h) (not_not_intro hall)⟩
  · exact ⟨_, by rw [if_neg hall], Or.inr rfl, iff_of_false (fun h => StepStatus.noConfusion h) hall,
      iff_of_true rfl hall⟩

/-- Witness for C3 at a concrete response: both platforms published, the
required set a subset, hence SKIPPED. -/
theorem check_manifest_exists_gate_witness :
    ∃ r, CheckConnectorImageDoesNotExist.run ctxEx ["linux/amd64", "linux/arm64"]
        "" "ignored" (some manifestEx) = .ok r
      ∧ (r.status = .SKIPPED ∨ r.status = .SUCCESS)
      ∧ (r.status = .SKIPPED ↔ ∀ p ∈ ["linux/amd64", "linux/arm64"], p ∈ ["linux/amd64", "linux/arm64"])
      ∧ (r.status = .SUCCESS ↔ ¬ ∀ p ∈ ["linux/amd64", "linux/arm64"], p ∈ ["linux/amd64", "linux/arm64"]) :=
  check_manifest_exists_gate ctxEx ["linux/amd64", "linux/arm64"] "" "ignored"
    manifestEx ["linux/amd64", "linux/arm64"] (by decide) rfl

/-- C5: for every manifest-inspect response whose stderr does not contain
"no such manifest" and whose stdout does not parse as JSON (the
`json.loads` call raises `json.JSONDecodeError`), the gate returns FAILURE
carrying both raw streams. -/
theorem check_unparseable_stdout_failure (ctx : PublishContext)
    (buildPlatforms : List String) (stderr stdout : String)
    (hns : ¬ pyIn "no such manifest" stderr) :
    CheckConnectorImageDoesNotExist.run ctx buildPlatforms stderr stdout none
      = .ok { step := checkTitle, status := .FAILURE,
              stderr := some stderr, stdout := some stdout } := by
  rw [CheckConnectorImageDoesNotExist.run.eq_def, if_neg hns]

/-- Witness for C5 at a concrete response. -/
theorem check_unparseable_stdout_failure_witness :
    CheckConnectorImageDoesNotExist.run ctxEx ["linux/amd64"]
        "some docker error" "not json at all" none
      = .ok { step := checkTitle, status := .FAILURE,
              stderr := some "some docker error", stdout := some "not json at all" } :=
  check_unparseable_stdout_failure ctxEx ["linux/amd64"]
    "some docker error" "not json at all" (by decide)

/-- C10: a manifest-inspect response with a manifest-exists stderr and a
stdout that is valid JSON but whose manifest entry lacks the `platform`
key makes the platform lookup raise `KeyError`, which the except clause
(catching only `json.JSONDecodeError`) does not convert into a FAILURE
result, and which the step boundary propagates as a fatal defect. -/
theorem check_malformed_manifest_escapes :
    checkBoundary checkTitle
        (CheckConnectorImageDoesNotExist.run ctxEx ["linux/amd64"] ""
          "unused raw stdout" (some malformedManifestEx))
      = .error (.keyError "platform") := by rfl

theorem firstNonSuccess_append (pre post : List StepResult) (r : StepResult)
    (hpre : ∀ x ∈ pre, x.status = StepStatus.SUCCESS)
    (hr : r.status ≠ StepStatus.SUCCESS) :
    firstNonSuccess (pre ++ r :: post) = some r := by
  induction pre with
  | nil => simp [firstNonSuccess, hr]
  | cons a as ih =>
    have ha : a.status = StepStatus.SUCCESS := hpre a (List.mem_cons_self a as)
    simp only [List.cons_append, firstNonSuccess, ha, if_pos]
    exact ih fun x hx => hpre x (List.mem_cons_of_mem a hx)

theorem firstNonSuccess_none (results : List StepResult)
    (h : ∀ x ∈ results, x.status = StepStatus.SUCCESS) :
    firstNonSuccess results = none := by
  induction results with
  | nil => rfl
  | cons a as ih =>
    have ha : a.status = StepStatus.SUCCESS := h a (List.mem_cons_self a as)
    simp only [firstNonSuccess, ha, if_pos]
    exact ih fun x hx => h x (List.mem_cons_of_mem a hx)

/-- C6: when the per-platform build results, iterated in their fixed
order, contain a non-SUCCESS result, `BuildConnectorForPublish` returns
the first such result itself, unchanged, and every later result in the
sequence is discarded (the outcome does not depend on `post` at all,
including further failures in it). -/
theorem build_returns_first_non_success (pre post : List StepResult) (r : StepResult)
    (hpre : ∀ x ∈ pre, x.status = StepStatus.SUCCESS)
    (hr : r.status ≠ StepStatus.SUCCESS) :
    BuildConnectorForPublish.run (pre ++ r :: post) = r := by
  rw [BuildConnectorForPublish.run, firstNonSuccess_append pre post r hpre hr]

/-- Witness for C6: three platforms, the second build fails, the third also
fails but is discarded; the coordinator returns the second result
unchanged. -/
theorem build_returns_first_non_success_witness :
    BuildConnectorForPublish.run
        [{ step := "build linux/amd64", status := .SUCCESS, output_artifact := .container 1 },
         { step := "build linux/arm64", status := .FAILURE, stderr := some "boom" },
         { step := "build linux/aarch32", status := .FAILURE, stderr := some "also boom" }]
      = { step := "build linux/arm64", status := .FAILURE, stderr := some "boom" } :=
  build_returns_first_non_success
    [{ step := "build linux/amd64", status := .SUCCESS, output_artifact := .container 1 }]
    [{ step := "build linux/aarch32", status := .FAILURE, stderr := some "also boom" }]
    { step := "build linux/arm64", status := .FAILURE, stderr := some "boom" }
    (by intro x hx; simp at hx; rw [hx]) (by intro h; exact StepStatus.noConfusion h)

/-- C7: when every per-platform build succeeds, `BuildConnectorForPublish`
returns SUCCESS and its output artifact is the list of the per-platform
artifacts in exactly the order the platforms were requested (the build
results arrive one per requested platform, in request order). -/
theorem build_all_success_preserves_order (platforms : List String)
    (resultOf : String → StepResult)
    (h : ∀ p ∈ platforms, (resultOf p).status = StepStatus.SUCCESS) :
    BuildConnectorForPublish.run (platforms.map resultOf)
      = { step := buildTitle, status := .SUCCESS,
          output_artifact := .list (platforms.map fun p => (resultOf p).output_artifact) } := by
  have hall : ∀ x ∈ platforms.map resultOf, x.status = StepStatus.SUCCESS := by
    intro x hx
    rcases List.mem_map.mp hx with ⟨p, hp, rfl⟩
    exact h p hp
  rw [BuildConnectorForPublish.run, firstNonSuccess_none _ hall, List.map_map]
  rfl

/-- Witness for C7 at two concrete platforms. -/
theorem build_all_success_preserves_order_witness :
    BuildConnectorForPublish.run
        (["linux/amd64", "linux/arm64"].map fun p =>
          { step := "build " ++ p, status := .SUCCESS,
            output_artifact := .container (if p = "linux/amd64" then 1 else 2) })
      = { step := buildTitle, status := .SUCCESS,
          output_artifact := .list (["linux/amd64", "linux/arm64"].map fun p =>
            (({ step := "build " ++ p, status := .SUCCESS,
                output_artifact := .container (if p = "linux/amd64" then 1 else 2) } : StepResult)).output_artifact) } :=
  build_all_success_preserves_order ["linux/amd64", "linux/arm64"]
    (fun p => { step := "build " ++ p, status := .SUCCESS,
                output_artifact := .container (if p = "linux/amd64" then 1 else 2) })
    (by intro p hp; rfl)

/-- C8: for every context and nonempty artifact set whose versioned publish
call succeeds, `PushConnectorImageToRegistry` performs exactly one publish
call, under the versioned reference only, when the pre-release flag is
true, and exactly two publish calls of the identical artifact set, the
versioned reference then the "latest" reference, when it is false. -/
theorem push_publish_call_policy (ctx : PublishContext)
    (publish : String → Container → List Container → Except String String)
    (c0 : Container) (variants : List Container) (ref : String)
    (h1 : publish ("docker.io/" ++ ctx.docker_image_name) c0 variants = .ok ref) :
    ∃ res, PushConnectorImageToRegistry.run ctx publish (c0 :: variants)
      = .ok (res,
          if ctx.pre_release then
            [⟨"docker.io/" ++ ctx.docker_image_name, c0, variants⟩]
          else
            [⟨"docker.io/" ++ ctx.docker_image_name, c0, variants⟩,
             ⟨"docker.io/" ++ latest_docker_image_name ctx, c0, variants⟩]) := by
  cases hpre : ctx.pre_release with
  | true =>
    exact ⟨{ step := pushTitle, status := .SUCCESS, stdout := some ("Published " ++ ref) },
      by simp [PushConnectorImageToRegistry.run, h1, hpre]⟩
  | false =>
    cases h2 : publish ("docker.io/" ++ latest_docker_image_name ctx) c0 variants with
    | error e =>
      exact ⟨{ step := pushTitle, status := .FAILURE, stderr := some e },
        by simp [PushConnectorImageToRegistry.run, h1, hpre, h2]⟩
    | ok ref2 =>
      exact ⟨{ step := pushTitle, status := .SUCCESS, stdout := some ("Published " ++ ref2) },
        by simp [PushConnectorImageToRegistry.run, h1, hpre, h2]⟩

/-- Witness for C8: non-pre-release context, successful publishes, two
calls with identical artifact sets. -/
theorem push_publish_call_policy_witness :
    ∃ res, PushConnectorImageToRegistry.run ctxEx (fun _ _ _ => .ok "sha-ref") [7, 8, 9]
      = .ok (res,
          if ctxEx.pre_release then
            [⟨"docker.io/" ++ ctxEx.docker_image_name, 7, [8, 9]⟩]
          else
            [⟨"docker.io/" ++ ctxEx.docker_image_name, 7, [8, 9]⟩,
             ⟨"docker.io/" ++ latest_docker_image_name ctxEx, 7, [8, 9]⟩]) :=
  push_publish_call_policy ctxEx (fun _ _ _ => .ok "sha-ref") 7 [8, 9] "sha-ref" rfl

/-- C1 (code defect, evaluated at a failing input): with byte-for-byte equal
extracted specs the step performs exactly one upload, under the OSS key
`specs/airbyte/source-faker/1.0.0/spec.json`; but with specs differing by
one byte the source raises `TypeError` (`list.append` called with two
arguments) before any upload is performed, instead of performing the
claimed second upload under the distinct cloud key. -/
theorem uploadSpec_upload_policy_bug :
    uploadSpecCore ctxEx uploadOk "\x7b\"k\": 1\x7d" "\x7b\"k\": 1\x7d"
      = .ok ({ step := uploadSpecTitle, status := .SUCCESS },
             ["specs/airbyte/source-faker/1.0.0/spec.json"])
    ∧ uploadSpecCore ctxEx uploadOk "\x7b\"k\": 1\x7d" "\x7b\"k\": 2\x7d"
      = .error .typeError := by
  exact ⟨rfl, rfl⟩

theorem parse_spec_output_skipped (lines : List (Option Json))
    (h : ∀ l ∈ lines, skippedLine l = true) :
    parse_spec_output lines
      = .error (.invalidSpecOutput "Could not parse the output of the spec command.") := by
  induction lines with
  | nil => rfl
  | cons l rest ih =>
    have hl := h l (List.mem_cons_self l rest)
    have hrest := ih fun x hx => h x (List.mem_cons_of_mem l hx)
    cases l with
    | none => simpa [parse_spec_output] using hrest
    | some j =>
      cases j with
      | obj fields =>
        cases hlk : fields.lookup "type" with
        | none => simp [parse_spec_output, Json.getItem, hlk, hrest]
        | some v =>
          have hv : jsonEqStr v "SPEC" = false := by simpa [skippedLine, hlk] using hl
          simp [parse_spec_output, Json.getItem, hlk, hv, hrest]
      | null => exact Bool.noConfusion hl
      | bool b => exact Bool.noConfusion hl
      | num n => exact Bool.noConfusion hl
      | str s => exact Bool.noConfusion hl
      | arr xs => exact Bool.noConfusion hl

/-- C2 counterexample: a spec-command output whose single line parses as
the JSON array `[]` contains no line parsing as a SPEC-typed record, yet
the step does not return a FAILURE result carrying the InvalidSpecOutput
diagnostic: the subscript `parsed_json["type"]` on a list raises
`TypeError`, which the except clause (catching only `json.JSONDecodeError`
and `KeyError`) lets escape, and which the step boundary propagates as a
fatal defect. -/
theorem uploadSpec_nonobject_line_escapes :
    stepBoundary uploadSpecTitle
        (UploadSpecToCache.run ctxEx uploadOk [some (Json.arr [])] [])
      = .error .typeError := by rfl

/-- C2 amended: for every OSS-mode spec-command output each of whose lines
either fails to parse as JSON or parses as a JSON object, if no line is a
record whose `type` field equals `SPEC`, then for every CLOUD-mode output
and upload backend the step execution entry point returns a StepResult
with status FAILURE carrying the distinguished InvalidSpecOutput
diagnostic text, without performing any upload, and the condition is not
propagated past the step boundary. -/
theorem uploadSpec_no_spec_record_failure (ctx : PublishContext)
    (upload : String → String → Nat × String × String)
    (ossLines cloudLines : List (Option Json))
    (h : ∀ l ∈ ossLines, skippedLine l = true) :
    stepBoundary uploadSpecTitle (UploadSpecToCache.run ctx upload ossLines cloudLines)
      = .ok ({ step := uploadSpecTitle, status := .FAILURE,
               stderr := some "Could not parse the output of the spec command." }, []) := by
  have hp := parse_spec_output_skipped ossLines h
  simp only [UploadSpecToCache.run, hp]
  rfl

/-- Witness for C2 at a concrete output: a blank unparseable line, a LOG
record and a record without a `type` field, none of them a SPEC record. -/
theorem uploadSpec_no_spec_record_failure_witness :
    stepBoundary uploadSpecTitle
        (UploadSpecToCache.run ctxEx uploadOk
          [none, some (Json.obj [("type", Json.str "LOG")]),
           some (Json.obj [("level", Json.str "INFO")])] [])
      = .ok ({ step := uploadSpecTitle, status := .FAILURE,
               stderr := some "Could not parse the output of the spec command." }, []) :=
  uploadSpec_no_spec_record_failure ctxEx uploadOk
    [none, some (Json.obj [("type", Json.str "LOG")]),
     some (Json.obj [("level", Json.str "INFO")])] [] (by decide)

/-- C9: when the last gating result is SKIPPED, the pipeline still runs the
metadata-upload step, assembles the report from the gating results followed
by the metadata-upload result, and terminates without running the build,
spec-upload or registry-push steps; and (second conjunct) this is the only
path on which the metadata upload is reached without entering the build
stage. -/
theorem pipeline_skipped_gating_path (inp : PipelineInputs) (last : StepResult)
    (hlast : inp.gatingResults.getLast? = some last)
    (hskip : last.status = StepStatus.SKIPPED) :
    run_connector_publish_pipeline inp
      = .ok { report := { results := inp.gatingResults ++ [inp.metadataUploadResult],
                          name := "PUBLISH RESULTS" },
              ranBuild := false, ranSpecUpload := false,
              ranRegistryPush := false, ranMetadataUpload := true }
    ∧ ∀ inp2 out, run_connector_publish_pipeline inp2 = .ok out →
        out.ranMetadataUpload = true → out.ranBuild = false →
        ∃ l, inp2.gatingResults.getLast? = some l ∧ l.status = StepStatus.SKIPPED := by
  constructor
  · simp [run_connector_publish_pipeline, pipelineAfterGating, hlast, hskip]
  · intro inp2 out hrun hmeta hbuild
    rw [run_connector_publish_pipeline] at hrun
    cases hl2 : inp2.gatingResults.getLast? with
    | none => rw [hl2] at hrun; exact Except.noConfusion hrun
    | some l =>
      rw [hl2] at hrun
      simp only [pipelineAfterGating] at hrun
      by_cases hs : l.status = StepStatus.SUCCESS
      · rw [if_neg (not_not_intro hs), pipelineBuildPhase] at hrun
        by_cases hb : (BuildConnectorForPublish.run inp2.buildResults).status = StepStatus.SUCCESS
        · rw [if_neg (not_not_intro hb)] at hrun
          cases ha : (BuildConnectorForPublish.run inp2.buildResults).output_artifact with
          | noArtifact => rw [ha] at hrun; exact Except.noConfusion hrun
          | container c => rw [ha] at hrun; exact Except.noConfusion hrun
          | list xs =>
            cases xs with
            | nil => rw [ha] at hrun; exact Except.noConfusion hrun
            | cons a as =>
              rw [ha] at hrun
              injection hrun with h
              rw [← h] at hbuild
              exact Bool.noConfusion hbuild
        · rw [if_pos hb] at hrun
          injection hrun with h
          rw [← h] at hmeta
          exact Bool.noConfusion hmeta
      · rw [if_pos hs] at hrun
        by_cases hsk : l.status = StepStatus.SKIPPED
        · exact ⟨l, rfl, hsk⟩
        · rw [if_neg hsk] at hrun
          injection hrun with h
          rw [← h] at hmeta
          exact Bool.noConfusion hmeta

/-- Witness for C9: validation succeeds, the gate reports SKIPPED, and the
pipeline reports the gating results followed by the metadata upload. -/
theorem pipeline_skipped_gating_path_witness :
    run_connector_publish_pipeline inpEx
      = .ok { report := { results := inpEx.gatingResults ++ [inpEx.metadataUploadResult],
                          name := "PUBLISH RESULTS" },
              ranBuild := false, ranSpecUpload := false,
              ranRegistryPush := false, ranMetadataUpload := true }
    ∧ ∀ inp2 out, run_connector_publish_pipeline inp2 = .ok out →
        out.ranMetadataUpload = true → out.ranBuild = false →
        ∃ l, inp2.gatingResults.getLast? = some l ∧ l.status = StepStatus.SKIPPED :=
  pipeline_skipped_gating_path inpEx
    { step := checkTitle, status := .SKIPPED } rfl rfl

end Publish
